import Mathlib

/-!
Verification of the `OptionClient` HTTP client (`binanceapi/option.py`).

The Python source is shallowly embedded: Python `dict`s (insertion-ordered,
key-unique) become association lists `List (String × Value)`, parameter
values become a small `Value` type mirroring Python truthiness and `str()`
rendering, the blocking retry loop of `OptionClient.request` becomes a
recursive function over an oracle assigning each attempt its outcome, and
the HMAC-SHA256 signer is implemented bit-for-bit over byte lists
(`Nat`s below 256).  Machine integers are modelled as `Nat` with explicit
`% 2 ^ 32` where 32-bit overflow matters.
-/

namespace BinanceOpt

/-- A Python parameter value as stored in the request dictionaries:
either a string or a number (quantities, prices, timestamps, windows;
numeric values are modelled as rationals, which is exact for every
comparison the source performs). -/
inductive Value where
  | vstr (s : String)
  | vnum (q : Rat)
deriving DecidableEq, Repr

/-- Python truthiness of a parameter value (`""` and `0` are falsy),
as used by `params.get('price')` in `place_order`. -/
def Value.truthy : Value → Bool
  | .vstr s => s ≠ ""
  | .vnum q => q ≠ 0

/-- Rendering of a value by Python string interpolation `f"{v}"`.
Strings render as themselves; numeric rendering is kept abstract-but-
executable as the decimal rendering of the rational. -/
def Value.render : Value → String
  | .vstr s => s
  | .vnum q => if q.den = 1 then q.num.repr else toString q

/-- A Python `dict` of request parameters: insertion-ordered association
list with pairwise-distinct keys. -/
abbrev Params : Type := List (String × Value)

/-- `d[k] = v`: update in place when the key is present, else append
(Python dict assignment preserves insertion order). -/
def dictSet (d : Params) (k : String) (v : Value) : Params :=
  if (List.any d fun kv => kv.1 = k) then
    List.map (fun kv => if kv.1 = k then (k, v) else kv) d
  else
    d ++ [(k, v)]

/-- `del d[k]`. -/
def dictDel (d : Params) (k : String) : Params :=
  List.filter (fun kv => kv.1 ≠ k) d

/-- `d.get(k)`: `none` models Python `None`. -/
def dictGet (d : Params) (k : String) : Option Value :=
  Option.map Prod.snd (List.find? (fun kv => kv.1 = k) d)

/-- Truthiness of `d.get(k)` (Python `None` is falsy). -/
def dictGetTruthy (d : Params) (k : String) : Bool :=
  match dictGet d k with
  | none => false
  | some v => v.truthy

/-- The keys of the dictionary, in insertion order. -/
def dictKeys (d : Params) : List String :=
  List.map Prod.fst d

/-- `OptionClient.build_parameters` (option.py lines 23-26):

    keys = list(params.keys())
    keys.sort()
    return '&'.join([f"{key}={params[key]}" for key in params.keys()])

The sorted copy `keys` is computed and then never used: the join runs
over `params.keys()`, i.e. insertion order.  The dead binding is kept to
mirror the source. -/
def strLeChars : List Char → List Char → Bool
  | [], _ => true
  | _ :: _, [] => false
  | a :: as, b :: bs =>
    if a.toNat < b.toNat then true
    else if b.toNat < a.toNat then false
    else strLeChars as bs

/-- Python string comparison: lexicographic on Unicode code points. -/
def strLe (a b : String) : Bool := strLeChars a.data b.data

def insertSorted (x : String) : List String → List String
  | [] => [x]
  | y :: ys => if strLe x y then x :: y :: ys else y :: insertSorted x ys

/-- Python `list.sort()` on strings: stable lexicographic insertion sort
(any correct sort; the standard library primitive is not repo code). -/
def sortStrings (l : List String) : List String := List.foldr insertSorted [] l

def build_parameters (params : Params) : String :=
  let _keys := sortStrings (dictKeys params)
  String.intercalate "&" (List.map (fun kv => kv.1 ++ "=" ++ Value.render kv.2) params)

/-- What line 25 of the source was evidently meant to feed into the join:
the same rendering with the keys in sorted order.  (Stated from the spec,
for comparison with `build_parameters` only.) -/
def build_parameters_sorted (params : Params) : String :=
  let keys := sortStrings (dictKeys params)
  String.intercalate "&"
    (List.map (fun key =>
      key ++ "=" ++ Value.render ((dictGet params key).getD (Value.vstr ""))) keys)

/-! ### Transport / retry loop

`OptionClient.request` (option.py lines 38-47):

    for i in range(0, self.try_counts):
        try:
            response = requests.request(...)
            if response.status_code == 200:
                return response.json()
            else:
                print(response.json(), response.status_code)
        except Exception as error:
            print(...)
            time.sleep(3)

Each iteration issues one HTTP attempt.  A 200 response returns the
decoded body at once; a non-200 response prints and falls through to the
next iteration; an exception prints, sleeps 3 seconds and falls through.
After `try_counts` iterations without a 200 the function returns `None`.
-/

/-- Outcome of one HTTP attempt, as the loop classifies it. -/
inductive Outcome where
  | success (body : String)
  | httpError (status : Nat) (body : String)
  | netError
deriving DecidableEq, Repr

/-- Whether an attempt outcome is an HTTP 200 success. -/
def Outcome.isSuccess : Outcome → Bool
  | .success _ => true
  | _ => false

/-- Observable trace of one `request` call: the returned value (`none`
models Python's implicit `return None`), the number of HTTP attempts
actually issued, and the number of 3-second sleeps performed. -/
structure TransportTrace where
  result : Option String
  attempts : Nat
  sleeps : Nat
deriving DecidableEq, Repr

/-- The attempt loop from attempt index `i`, with `fuel` iterations left;
`oracle j` is the outcome attempt `j` would have if issued. -/
def transportAux (oracle : Nat → Outcome) (i : Nat) : Nat → TransportTrace
  | 0 => ⟨none, 0, 0⟩
  | fuel + 1 =>
    match oracle i with
    | .success body => ⟨some body, 1, 0⟩
    | .httpError _ _ =>
      let t := transportAux oracle (i + 1) fuel
      ⟨t.result, t.attempts + 1, t.sleeps⟩
    | .netError =>
      let t := transportAux oracle (i + 1) fuel
      ⟨t.result, t.attempts + 1, t.sleeps + 1⟩

/-- The full attempt loop of `OptionClient.request`: `try_counts`
iterations starting at attempt 0. -/
def transportLoop (try_counts : Nat) (oracle : Nat → Outcome) : TransportTrace :=
  transportAux oracle 0 try_counts

/-! ### HMAC-SHA256 signer

`OptionClient._sign` (option.py lines 199-207) calls Python's
`hmac.new(secret.encode('utf8'), query_string.encode('utf-8'),
hashlib.sha256).hexdigest()`.  The primitives (`hashlib.sha256`,
`hmac`, UTF-8 encoding) are standard-library functions, embedded here
bit-for-bit from their specifications (FIPS 180-4, RFC 2104, UTF-8)
over byte lists; 32-bit words are `Nat`s reduced by `% 2 ^ 32`. -/

/-- Truncation to a 32-bit word. -/
def w32 (n : Nat) : Nat := n % 4294967296

/-- 32-bit right rotation (argument below `2 ^ 32`). -/
def rotr (x n : Nat) : Nat := w32 ((x >>> n) ||| (x <<< (32 - n)))

/-- SHA-256 `Ch e f g`; 32-bit complement written as xor with `2^32-1`. -/
def shaCh (e f g : Nat) : Nat := (e &&& f) ^^^ ((e ^^^ 4294967295) &&& g)

/-- SHA-256 `Maj a b c`. -/
def shaMaj (a b c : Nat) : Nat := (a &&& b) ^^^ (a &&& c) ^^^ (b &&& c)

/-- SHA-256 Σ₀. -/
def bigS0 (a : Nat) : Nat := rotr a 2 ^^^ rotr a 13 ^^^ rotr a 22

/-- SHA-256 Σ₁. -/
def bigS1 (e : Nat) : Nat := rotr e 6 ^^^ rotr e 11 ^^^ rotr e 25

/-- SHA-256 σ₀. -/
def smallS0 (w : Nat) : Nat := rotr w 7 ^^^ rotr w 18 ^^^ (w >>> 3)

/-- SHA-256 σ₁. -/
def smallS1 (w : Nat) : Nat := rotr w 17 ^^^ rotr w 19 ^^^ (w >>> 10)

/-- The eight working variables / hash state of SHA-256. -/
structure Hash8 where
  h0 : Nat
  h1 : Nat
  h2 : Nat
  h3 : Nat
  h4 : Nat
  h5 : Nat
  h6 : Nat
  h7 : Nat
deriving DecidableEq, Repr

/-- SHA-256 initial hash value (FIPS 180-4 §5.3.3, in decimal). -/
def shaInit : Hash8 :=
  ⟨1779033703, 3144134277, 1013904242, 2773480762,
   1359893119, 2600822924, 528734635, 1541459225⟩

/-- The 64 SHA-256 round constants (FIPS 180-4 §4.2.2, in decimal). -/
def shaK : List Nat :=
  [1116352408, 1899447441, 3049323471, 3921009573, 961987163, 1508970993,
   2453635748, 2870763221, 3624381080, 310598401, 607225278, 1426881987,
   1925078388, 2162078206, 2614888103, 3248222580, 3835390401, 4022224774,
   264347078, 604807628, 770255983, 1249150122, 1555081692, 1996064986,
   2554220882, 2821834349, 2952996808, 3210313671, 3336571891, 3584528711,
   113926993, 338241895, 666307205, 773529912, 1294757372, 1396182291,
   1695183700, 1986661051, 2177026350, 2456956037, 2730485921, 2820302411,
   3259730800, 3345764771, 3516065817, 3600352804, 4094571909, 275423344,
   430227734, 506948616, 659060556, 883997877, 958139571, 1322822218,
   1537002063, 1747873779, 1955562222, 2024104815, 2227730452, 2361852424,
   2428436474, 2756734187, 3204031479, 3329325298]

/-- Big-endian 8-byte encoding (for the trailing bit-length). -/
def be64 (n : Nat) : List Nat :=
  [n >>> 56 % 256, n >>> 48 % 256, n >>> 40 % 256, n >>> 32 % 256,
   n >>> 24 % 256, n >>> 16 % 256, n >>> 8 % 256, n % 256]

/-- Big-endian 4-byte encoding of a 32-bit word. -/
def be4 (n : Nat) : List Nat :=
  [n >>> 24 % 256, n >>> 16 % 256, n >>> 8 % 256, n % 256]

/-- SHA-256 padding: append `0x80`, zero bytes to 56 mod 64, then the
64-bit big-endian message bit length. -/
def sha256pad (msg : List Nat) : List Nat :=
  let ml := msg.length
  let z := (119 - ml % 64) % 64
  msg ++ 128 :: (List.replicate z 0 ++ be64 (8 * ml))

/-- Split a byte list into 64-byte chunks; the fuel argument (any bound
on the number of chunks, the list length below) keeps the recursion
structural. -/
def chunks64Aux : Nat → List Nat → List (List Nat)
  | 0, _ => []
  | _, [] => []
  | f + 1, b :: rest => List.take 64 (b :: rest) :: chunks64Aux f (List.drop 63 rest)

/-- Split the padded message into 64-byte chunks. -/
def chunks64 (l : List Nat) : List (List Nat) := chunks64Aux l.length l

/-- Group a 64-byte chunk into sixteen big-endian 32-bit words. -/
def toWords : List Nat → List Nat
  | b0 :: b1 :: b2 :: b3 :: rest =>
    ((b0 <<< 24) + (b1 <<< 16) + (b2 <<< 8) + b3) :: toWords rest
  | _ => []

/-- Extend the 16-word schedule by `f` more words (48 for SHA-256). -/
def extendWords : Nat → Array Nat → Array Nat
  | 0, ws => ws
  | f + 1, ws =>
    let i := ws.size
    let w := w32 (ws.getD (i - 16) 0 + smallS0 (ws.getD (i - 15) 0) +
                  ws.getD (i - 7) 0 + smallS1 (ws.getD (i - 2) 0))
    extendWords f (ws.push w)

/-- The 64-word message schedule of one chunk. -/
def messageSchedule (chunk : List Nat) : List Nat :=
  (extendWords 48 (Array.mk (toWords chunk))).toList

/-- One SHA-256 compression round; `wk` is the (schedule word, constant)
pair for the round. -/
def shaRound (s : Hash8) (wk : Nat × Nat) : Hash8 :=
  let t1 := w32 (s.h7 + bigS1 s.h4 + shaCh s.h4 s.h5 s.h6 + wk.2 + wk.1)
  let t2 := w32 (bigS0 s.h0 + shaMaj s.h0 s.h1 s.h2)
  ⟨w32 (t1 + t2), s.h0, s.h1, s.h2, w32 (s.h3 + t1), s.h4, s.h5, s.h6⟩

/-- Compress one 64-byte chunk into the running hash. -/
def compressChunk (H : Hash8) (chunk : List Nat) : Hash8 :=
  let s := List.foldl shaRound H (List.zip (messageSchedule chunk) shaK)
  ⟨w32 (H.h0 + s.h0), w32 (H.h1 + s.h1), w32 (H.h2 + s.h2), w32 (H.h3 + s.h3),
   w32 (H.h4 + s.h4), w32 (H.h5 + s.h5), w32 (H.h6 + s.h6), w32 (H.h7 + s.h7)⟩

/-- Serialize the final state as 32 big-endian bytes. -/
def digestBytes (H : Hash8) : List Nat :=
  be4 H.h0 ++ be4 H.h1 ++ be4 H.h2 ++ be4 H.h3 ++
  be4 H.h4 ++ be4 H.h5 ++ be4 H.h6 ++ be4 H.h7

/-- SHA-256 of a byte list. -/
def sha256 (msg : List Nat) : List Nat :=
  digestBytes (List.foldl compressChunk shaInit (chunks64 (sha256pad msg)))

/-- HMAC key normalization: hash keys longer than the 64-byte block,
then zero-pad to the block size (RFC 2104). -/
def hmacKeyBlock (key : List Nat) : List Nat :=
  let k := if 64 < key.length then sha256 key else key
  k ++ List.replicate (64 - k.length) 0

/-- HMAC-SHA256 of a message under a key, as byte lists. -/
def hmacSha256 (key msg : List Nat) : List Nat :=
  let kb := hmacKeyBlock key
  let ipadded := List.map (fun b => b ^^^ 54) kb
  let opadded := List.map (fun b => b ^^^ 92) kb
  sha256 (opadded ++ sha256 (ipadded ++ msg))

/-- Lowercase hexadecimal digit characters. -/
def hexChar (n : Nat) : Char := List.getD ("0123456789abcdef".data) n '0'

/-- Two lowercase hex characters of one byte. -/
def byteHex (b : Nat) : List Char := [hexChar (b / 16 % 16), hexChar (b % 16)]

/-- `.hexdigest()`: lowercase hexadecimal rendering of a byte list. -/
def hexDigest (bytes : List Nat) : String :=
  String.mk (List.flatMap bytes byteHex)

/-- UTF-8 encoding of one character (Unicode scalar value). -/
def charUtf8 (c : Char) : List Nat :=
  let n := c.toNat
  if n < 128 then [n]
  else if n < 2048 then [192 + n / 64, 128 + n % 64]
  else if n < 65536 then [224 + n / 4096, 128 + n / 64 % 64, 128 + n % 64]
  else [240 + n / 262144, 128 + n / 4096 % 64, 128 + n / 64 % 64, 128 + n % 64]

/-- `s.encode('utf-8')` as a byte list. -/
def utf8Bytes (s : String) : List Nat := List.flatMap s.data charUtf8

/-- A Python exception raised by the embedded client code. -/
inductive PyErr where
  | attributeError
  | valueError (msg : String)
deriving DecidableEq, Repr

deriving instance DecidableEq for Except

/-- `OptionClient._sign` (option.py lines 199-207):

    query_string = self.build_parameters(params)
    hex_digest = hmac.new(self.api_secret.encode('utf8'),
        query_string.encode("utf-8"), hashlib.sha256).hexdigest()
    return query_string + '&signature=' + str(hex_digest)

`api_secret` defaults to `None` in `__init__`; calling `_sign` then
raises `AttributeError` at `None.encode` — any other string, including
the empty one, is accepted and signed. -/
def _sign (api_secret : Option String) (params : Params) : Except PyErr String :=
  match api_secret with
  | none => Except.error PyErr.attributeError
  | some secret =>
    let query_string := build_parameters params
    let hex_digest := hexDigest (hmacSha256 (utf8Bytes secret) (utf8Bytes query_string))
    Except.ok (query_string ++ "&signature=" ++ hex_digest)

/-! ### Client configuration and order-id generation -/

/-- The immutable configuration set by `OptionClient.__init__`
(option.py lines 13-21).  `api_key` and `api_secret` default to `None`
(modelled with `Option`); `recv_window` is fixed at 10000. -/
structure Config where
  api_key : Option String
  api_secret : Option String
  host : String
  recv_window : Nat
  try_counts : Nat
deriving DecidableEq, Repr

/-- `OptionClient.__init__`: host falls back to the testnet URL,
`recv_window` is set to 10000. -/
def mkConfig (api_key api_secret host : Option String) (try_counts : Nat) : Config :=
  { api_key := api_key
    api_secret := api_secret
    host := match host with
      | some h => h
      | none => "https://testnet.binanceops.com"
    recv_window := 10000
    try_counts := try_counts }

/-- The mutable client state: the order counter, initialized to
1,000,000 and guarded by `order_count_lock`. -/
structure ClientState where
  order_count : Nat
deriving DecidableEq, Repr

/-- The counter value set in `__init__` (`self.order_count = 1_000_000`). -/
def initState : ClientState := ⟨1000000⟩

/-- `OptionClient.get_client_order_id` (option.py lines 183-190):

    with self.order_count_lock:
        self.order_count += 1
        return "x-A6SIDXVS" + str(self.get_timestamp()) + str(self.order_count)

One serialized invocation: `ts` is the millisecond timestamp sampled by
`get_timestamp` during the call.  Returns the id and the new state. -/
def get_client_order_id (ts : Nat) (s : ClientState) : String × ClientState :=
  let c := s.order_count + 1
  ("x-A6SIDXVS" ++ Nat.repr ts ++ Nat.repr c, ⟨c⟩)

/-- N invocations of `get_client_order_id` in the order in which they
acquire `order_count_lock` (the lock serializes concurrent callers);
`tss` lists the timestamp each call samples.  Returns each call's id
paired with the counter value embedded in it, plus the final state. -/
def runCalls : List Nat → ClientState → (List (String × Nat) × ClientState)
  | [], s => ([], s)
  | ts :: rest, s =>
    let r := get_client_order_id ts s
    let t := runCalls rest r.2
    ((r.1, r.2.order_count) :: t.1, t.2)

/-! ### Enumerations

`binanceapi/constant.py` is imported by option.py but is not part of the
sources provided; the enums below are modelled from the spec. -/

/-- Modelled from the spec: the HTTP verbs used by the endpoint table in
§6 (`RequestMethod` from the missing `binanceapi/constant.py`); `value`
is the wire string passed to `requests.request`. -/
inductive RequestMethod where
  | GET
  | POST
  | PUT
  | DELETE
deriving DecidableEq, Repr

/-- The `.value` wire string of a request method. -/
def RequestMethod.value : RequestMethod → String
  | .GET => "GET"
  | .POST => "POST"
  | .PUT => "PUT"
  | .DELETE => "DELETE"

/-- Modelled from the spec: order side enum with string wire values (§9:
"String-based enum values (order side, type, interval)"; `OrderSide`
from the missing `binanceapi/constant.py`). -/
inductive OrderSide where
  | BUY
  | SELL
deriving DecidableEq, Repr

/-- The `.value` wire string of an order side. -/
def OrderSide.value : OrderSide → String
  | .BUY => "BUY"
  | .SELL => "SELL"

/-- Modelled from the spec: order type enum (§4.5 names LIMIT, MARKET
and STOP orders; `OrderType` from the missing `binanceapi/constant.py`). -/
inductive OrderType where
  | LIMIT
  | MARKET
  | STOP
deriving DecidableEq, Repr

/-- The `.value` wire string of an order type. -/
def OrderType.value : OrderType → String
  | .LIMIT => "LIMIT"
  | .MARKET => "MARKET"
  | .STOP => "STOP"

/-! ### Request building (`OptionClient.request`, option.py lines 28-36) -/

/-- One HTTP request as handed to `requests.request`: verb, full URL
(with query string), and headers.  A header value of `none` models the
Python `None` that an unconfigured `api_key` puts in the header dict. -/
structure HttpRequest where
  method : String
  url : String
  headers : List (String × Option String)
deriving DecidableEq, Repr

/-- The request-building prefix of `OptionClient.request` (lines 28-36):

    url = self.host + path
    if verify:
        query_str = self._sign(params)
        url += '?' + query_str
    elif params:
        url += '?' + self.build_parameters(params)
    headers = {"X-MBX-APIKEY": self.api_key}

An exception from `_sign` (secret `None`) propagates before any attempt
is issued; otherwise the built request feeds the attempt loop
(`transportLoop`). -/
def requestBuild (cfg : Config) (req_method : RequestMethod) (path : String)
    (params : Params) (verify : Bool) : Except PyErr HttpRequest :=
  let url := cfg.host ++ path
  let headers := [("X-MBX-APIKEY", cfg.api_key)]
  if verify then
    match _sign cfg.api_secret params with
    | Except.error e => Except.error e
    | Except.ok query_str => Except.ok ⟨req_method.value, url ++ "?" ++ query_str, headers⟩
  else if params ≠ [] then
    Except.ok ⟨req_method.value, url ++ "?" ++ build_parameters params, headers⟩
  else
    Except.ok ⟨req_method.value, url, headers⟩

/-! ### Endpoint operations

Each `*_params` function is the parameter dictionary the corresponding
method assembles; `ts` stands for the value `self.get_timestamp()`
returns during the call.  The `*_request` functions compose with
`requestBuild` exactly as the method's final `self.request(...)` call. -/

/-- `get_ping` (lines 49-55): no parameters, unsigned. -/
def get_ping_request (cfg : Config) : Except PyErr HttpRequest :=
  requestBuild cfg RequestMethod.GET "/api/v1/ping" [] false

/-- `get_server_time` (lines 57-63): no parameters, unsigned. -/
def get_server_time_request (cfg : Config) : Except PyErr HttpRequest :=
  requestBuild cfg RequestMethod.GET "/api/v1/time" [] false

/-- `get_order_book` (lines 111-129): unsupported depth limits fall back
to 10. -/
def get_order_book_params (symbol : String) (limit : Nat) : Params :=
  let l := if limit = 10 ∨ limit = 20 ∨ limit = 50 ∨ limit = 100 ∨ limit = 1000
    then limit else 10
  [("symbol", Value.vstr symbol), ("limit", Value.vnum l)]

/-- `get_order_book`: the unsigned depth request. -/
def get_order_book_request (cfg : Config) (symbol : String) (limit : Nat) :
    Except PyErr HttpRequest :=
  requestBuild cfg RequestMethod.GET "/api/v1/depth" (get_order_book_params symbol limit) false

/-- `get_kline` (lines 131-159): limit falls back to 500 unless in
{500, 1500}; `startTime`/`endTime` are added only when truthy. -/
def get_kline_params (symbol interval : String) (start_time end_time : Option Nat)
    (limit : Nat) : Params :=
  let l := if limit = 500 ∨ limit = 1500 then limit else 500
  let params : Params :=
    [("symbol", Value.vstr symbol), ("interval", Value.vstr interval),
     ("limit", Value.vnum l)]
  let params := match start_time with
    | some t => if t ≠ 0 then dictSet params "startTime" (Value.vnum t) else params
    | none => params
  match end_time with
  | some t => if t ≠ 0 then dictSet params "endTime" (Value.vnum t) else params
  | none => params

/-- `get_kline`: the unsigned klines request. -/
def get_kline_request (cfg : Config) (symbol interval : String)
    (start_time end_time : Option Nat) (limit : Nat) : Except PyErr HttpRequest :=
  requestBuild cfg RequestMethod.GET "/api/v1/klines"
    (get_kline_params symbol interval start_time end_time limit) false

/-- `get_listen_key` (lines 209-216): `recvWindow` hard-coded to 5000. -/
def get_listen_key_params (ts : Nat) : Params :=
  [("recvWindow", Value.vnum 5000), ("timestamp", Value.vnum ts)]

/-- `get_listen_key`: the signed POST. -/
def get_listen_key_request (cfg : Config) (ts : Nat) : Except PyErr HttpRequest :=
  requestBuild cfg RequestMethod.POST "/api/v1/userDataStream" (get_listen_key_params ts) true

/-- `extend_listen_key` (lines 218-229): `recvWindow` hard-coded to 5000. -/
def extend_listen_key_params (ts : Nat) (listen_key : String) : Params :=
  [("recvWindow", Value.vnum 5000), ("timestamp", Value.vnum ts),
   ("listenKey", Value.vstr listen_key)]

/-- `extend_listen_key`: the signed PUT. -/
def extend_listen_key_request (cfg : Config) (ts : Nat) (listen_key : String) :
    Except PyErr HttpRequest :=
  requestBuild cfg RequestMethod.PUT "/api/v1/userDataStream"
    (extend_listen_key_params ts listen_key) true

/-- `get_order` (lines 280-290): no `recvWindow` in the dictionary. -/
def get_order_params (symbol : String) (ts : Nat) (client_order_id : String) : Params :=
  [("symbol", Value.vstr symbol), ("timestamp", Value.vnum ts),
   ("origClientOrderId", Value.vstr client_order_id)]

/-- `get_order`: the signed GET. -/
def get_order_request (cfg : Config) (symbol : String) (ts : Nat)
    (client_order_id : String) : Except PyErr HttpRequest :=
  requestBuild cfg RequestMethod.GET "/api/v1/order"
    (get_order_params symbol ts client_order_id) true

/-- `cancel_order` (lines 292-310): same dictionary as `get_order`,
again without `recvWindow`. -/
def cancel_order_params (symbol : String) (ts : Nat) (client_order_id : String) : Params :=
  [("symbol", Value.vstr symbol), ("timestamp", Value.vnum ts),
   ("origClientOrderId", Value.vstr client_order_id)]

/-- `cancel_order`: the signed DELETE. -/
def cancel_order_request (cfg : Config) (symbol : String) (ts : Nat)
    (client_order_id : String) : Except PyErr HttpRequest :=
  requestBuild cfg RequestMethod.DELETE "/api/v1/order"
    (cancel_order_params symbol ts client_order_id) true

/-- `get_open_orders` (lines 312-324): `symbol` added only when truthy;
no `recvWindow`. -/
def get_open_orders_params (ts : Nat) (symbol : Option String) : Params :=
  let params : Params := [("timestamp", Value.vnum ts)]
  match symbol with
  | some s => if s ≠ "" then dictSet params "symbol" (Value.vstr s) else params
  | none => params

/-- `get_open_orders`: the signed GET. -/
def get_open_orders_request (cfg : Config) (ts : Nat) (symbol : Option String) :
    Except PyErr HttpRequest :=
  requestBuild cfg RequestMethod.GET "/api/v1/openOrders"
    (get_open_orders_params ts symbol) true

/-- `cancel_open_orders` (lines 326-339): includes `recvWindow` from the
configuration (10000). -/
def cancel_open_orders_params (cfg : Config) (ts : Nat) (symbol : String) : Params :=
  [("timestamp", Value.vnum ts), ("recvWindow", Value.vnum cfg.recv_window),
   ("symbol", Value.vstr symbol)]

/-- `cancel_open_orders`: the signed DELETE. -/
def cancel_open_orders_request (cfg : Config) (ts : Nat) (symbol : String) :
    Except PyErr HttpRequest :=
  requestBuild cfg RequestMethod.DELETE "/api/v1/openOrders"
    (cancel_open_orders_params cfg ts symbol) true

/-- `get_account_info` (lines 341-350): includes `recvWindow` (10000). -/
def get_account_info_params (cfg : Config) (ts : Nat) : Params :=
  [("timestamp", Value.vnum ts), ("recvWindow", Value.vnum cfg.recv_window)]

/-- `get_account_info`: the signed GET. -/
def get_account_info_request (cfg : Config) (ts : Nat) : Except PyErr HttpRequest :=
  requestBuild cfg RequestMethod.GET "/api/v1/account" (get_account_info_params cfg ts) true

/-- `place_order` (option.py lines 234-278): parameter assembly.

    params = { "symbol": ..., "side": ..., "type": ..., "quantity": ...,
               "price": ..., "recvWindow": self.recv_window,
               "timestamp": self.get_timestamp(), "newClientOrderId": ... }
    if order_type == OrderType.LIMIT: params['timeInForce'] = time_inforce
    if order_type == OrderType.MARKET:
        if params.get('price'): del params['price']
    if order_type == OrderType.STOP:
        if stop_price > 0: params["stopPrice"] = stop_price
        else: raise ValueError("stopPrice must greater than 0")

`client_order_id` is the resolved id (the caller's, or the one
`get_client_order_id` generated when the caller passed `None`);
quantities and prices are exact numbers. -/
def place_order_params (cfg : Config) (ts : Nat) (client_order_id : String)
    (symbol : String) (order_side : OrderSide) (order_type : OrderType)
    (quantity price : Rat) (time_inforce : String) (stop_price : Rat) :
    Except PyErr Params :=
  let params : Params :=
    [("symbol", Value.vstr symbol), ("side", Value.vstr order_side.value),
     ("type", Value.vstr order_type.value), ("quantity", Value.vnum quantity),
     ("price", Value.vnum price), ("recvWindow", Value.vnum cfg.recv_window),
     ("timestamp", Value.vnum ts), ("newClientOrderId", Value.vstr client_order_id)]
  let params := if order_type = OrderType.LIMIT
    then dictSet params "timeInForce" (Value.vstr time_inforce) else params
  let params := if order_type = OrderType.MARKET
    then (if dictGetTruthy params "price" then dictDel params "price" else params)
    else params
  if order_type = OrderType.STOP then
    if 0 < stop_price then Except.ok (dictSet params "stopPrice" (Value.vnum stop_price))
    else Except.error (PyErr.valueError "stopPrice must greater than 0")
  else
    Except.ok params

/-- `place_order`: validation, then the signed POST; the `ValueError`
from a non-positive stop price propagates before any request exists. -/
def place_order_request (cfg : Config) (ts : Nat) (client_order_id : String)
    (symbol : String) (order_side : OrderSide) (order_type : OrderType)
    (quantity price : Rat) (time_inforce : String) (stop_price : Rat) :
    Except PyErr HttpRequest :=
  match place_order_params cfg ts client_order_id symbol order_side order_type
      quantity price time_inforce stop_price with
  | Except.error e => Except.error e
  | Except.ok params => requestBuild cfg RequestMethod.POST "/api/v1/order" params true

/-! ### Auxiliary observation functions -/

/-- Number of network-exception outcomes among attempts
`start, start+1, ..., start+n-1`: the number of 3-second sleeps a run of
`n` non-200 attempts performs. -/
def netErrCount (oracle : Nat → Outcome) (start : Nat) : Nat → Nat
  | 0 => 0
  | n + 1 => (if oracle start = Outcome.netError then 1 else 0) + netErrCount oracle (start + 1) n

/-- A concrete attempt oracle: the first attempt receives HTTP 404, every
later attempt succeeds. -/
def oracle404 : Nat → Outcome :=
  fun i => if i = 0 then Outcome.httpError 404 "err" else Outcome.success "ok"

/-- A concrete attempt oracle on which no attempt ever succeeds: attempt
1 hits a network exception, the rest receive HTTP 500. -/
def oracleAllFail : Nat → Outcome :=
  fun i => if i = 1 then Outcome.netError else Outcome.httpError 500 "e"

/-- The parameter dictionary a fallible builder would send (empty when
the builder raised). -/
def sentParams (r : Except PyErr Params) : Params :=
  match r with
  | Except.error _ => []
  | Except.ok p => p

/-- The headers a fallible request build would send (empty when the
build raised before constructing the request). -/
def reqHeaders (r : Except PyErr HttpRequest) : List (String × Option String) :=
  match r with
  | Except.error _ => []
  | Except.ok req => req.headers

/-! ### Facts about `Nat.repr` (Python `str(int)`)

The order-id strings concatenate decimal renderings; their distinctness
rests on injectivity and length monotonicity of `Nat.repr`, proved by
relating core's fuelled `Nat.toDigits` to Mathlib's `Nat.digits`. -/

theorem asString_data (l : List Char) : (List.asString l).data = l := rfl

theorem toDigitsCore_eq (n : Nat) : 0 < n → ∀ (f : Nat) (ds : List Char), n < f →
    Nat.toDigitsCore 10 f n ds = List.map Nat.digitChar (Nat.digits 10 n).reverse ++ ds := by
  induction n using Nat.strong_induction_on with
  | _ n ih =>
    intro hn f ds hf
    match f, hf with
    | f + 1, _ =>
      show Nat.toDigitsCore 10 (f + 1) n ds = _
      rw [Nat.toDigitsCore]
      by_cases h10 : n / 10 = 0
      · have hlt : n < 10 := (Nat.div_eq_zero_iff (by norm_num)).mp h10
        simp only [h10, if_true]
        rw [Nat.digits_def' (by norm_num : (1 : Nat) < 10) hn, h10, Nat.digits_zero]
        simp [Nat.mod_eq_of_lt hlt]
      · have hdiv : n / 10 < n := Nat.div_lt_self hn (by norm_num)
        simp only [h10, if_false]
        rw [ih (n / 10) hdiv (Nat.pos_of_ne_zero h10) f
          (Nat.digitChar (n % 10) :: ds) (by omega)]
        rw [Nat.digits_def' (by norm_num : (1 : Nat) < 10) hn]
        simp

theorem repr_eq_of_pos {n : Nat} (hn : 0 < n) :
    Nat.repr n = List.asString (List.map Nat.digitChar (Nat.digits 10 n).reverse) := by
  show (Nat.toDigits 10 n).asString = _
  rw [Nat.toDigits, toDigitsCore_eq n hn (n + 1) [] (Nat.lt_succ_self n)]
  simp

theorem repr_data_of_pos {n : Nat} (hn : 0 < n) :
    (Nat.repr n).data = List.map Nat.digitChar (Nat.digits 10 n).reverse := by
  rw [repr_eq_of_pos hn, asString_data]

theorem digitChar_inj : ∀ a, a < 10 → ∀ b, b < 10 →
    Nat.digitChar a = Nat.digitChar b → a = b := by decide

theorem map_digitChar_inj (l1 : List Nat) : ∀ (l2 : List Nat),
    (∀ x ∈ l1, x < 10) → (∀ x ∈ l2, x < 10) →
    List.map Nat.digitChar l1 = List.map Nat.digitChar l2 → l1 = l2 := by
  induction l1 with
  | nil =>
    intro l2 _ _ h
    cases l2 with
    | nil => rfl
    | cons b bs => simp at h
  | cons a as ih =>
    intro l2 h1 h2 h
    cases l2 with
    | nil => simp at h
    | cons b bs =>
      simp only [List.map_cons, List.cons.injEq] at h
      have hab := digitChar_inj a (h1 a (by simp)) b (h2 b (by simp)) h.1
      subst hab
      rw [ih bs (fun x hx => h1 x (by simp [hx])) (fun x hx => h2 x (by simp [hx])) h.2]

theorem digits_all_lt (n : Nat) : ∀ x ∈ (Nat.digits 10 n).reverse, x < 10 := by
  intro x hx
  exact Nat.digits_lt_base (by norm_num) (List.mem_reverse.mp hx)

theorem repr_inj {a b : Nat} (h : Nat.repr a = Nat.repr b) : a = b := by
  have hd : (Nat.repr a).data = (Nat.repr b).data := by rw [h]
  rcases Nat.eq_zero_or_pos a with ha | ha
  · rcases Nat.eq_zero_or_pos b with hb | hb
    · omega
    · subst ha
      rw [repr_data_of_pos hb] at hd
      have h0 : List.map Nat.digitChar [0] = List.map Nat.digitChar (Nat.digits 10 b).reverse := hd
      have := map_digitChar_inj [0] (Nat.digits 10 b).reverse (by decide) (digits_all_lt b) h0
      have hrev : Nat.digits 10 b = [0] := by
        have := congrArg List.reverse this
        simpa using this.symm
      have hb0 := Nat.ofDigits_digits 10 b
      rw [hrev] at hb0
      simp [Nat.ofDigits] at hb0
      omega
  · rcases Nat.eq_zero_or_pos b with hb | hb
    · subst hb
      rw [repr_data_of_pos ha] at hd
      have h0 : List.map Nat.digitChar (Nat.digits 10 a).reverse = List.map Nat.digitChar [0] := hd
      have := map_digitChar_inj (Nat.digits 10 a).reverse [0] (digits_all_lt a) (by decide) h0
      have hrev : Nat.digits 10 a = [0] := by
        have := congrArg List.reverse this
        simpa using this
      have ha0 := Nat.ofDigits_digits 10 a
      rw [hrev] at ha0
      simp [Nat.ofDigits] at ha0
      omega
    · rw [repr_data_of_pos ha, repr_data_of_pos hb] at hd
      have := map_digitChar_inj _ _ (digits_all_lt a) (digits_all_lt b) hd
      have := List.reverse_injective this
      exact Nat.digits.injective 10 this

theorem repr_length_eq (n : Nat) : (Nat.repr n).length = Nat.log 10 n + 1 := by
  rcases Nat.eq_zero_or_pos n with h | h
  · subst h
    simp [Nat.log_zero_right]
    rfl
  · rw [repr_eq_of_pos h]
    show (List.map Nat.digitChar (Nat.digits 10 n).reverse).length = _
    rw [List.length_map, List.length_reverse,
      Nat.digits_len 10 n (by norm_num) (Nat.pos_iff_ne_zero.mp h)]

theorem repr_length_mono {a b : Nat} (h : a ≤ b) :
    (Nat.repr a).length ≤ (Nat.repr b).length := by
  rw [repr_length_eq, repr_length_eq]
  exact Nat.succ_le_succ (Nat.log_mono_right h)

/-- Two order ids built from a not-later timestamp and a strictly
smaller counter value never coincide: the length of a decimal rendering
is monotone, so the equal total lengths force the timestamp fields and
the counter fields to align, and `Nat.repr` is injective. -/
theorem client_order_id_ne (ts1 ts2 c1 c2 : Nat) (hts : ts1 ≤ ts2) (hc : c1 < c2) :
    "x-A6SIDXVS" ++ Nat.repr ts1 ++ Nat.repr c1 ≠
      "x-A6SIDXVS" ++ Nat.repr ts2 ++ Nat.repr c2 := by
  intro h
  have hd := congrArg String.data h
  simp only [String.data_append, List.append_assoc] at hd
  have hd2 : (Nat.repr ts1).data ++ (Nat.repr c1).data =
      (Nat.repr ts2).data ++ (Nat.repr c2).data := List.append_cancel_left hd
  have hlen := congrArg List.length hd2
  simp only [List.length_append] at hlen
  have hL : (Nat.repr ts1).length ≤ (Nat.repr ts2).length := repr_length_mono hts
  have hC : (Nat.repr c1).length ≤ (Nat.repr c2).length := repr_length_mono (Nat.le_of_lt hc)
  have hLeq : (Nat.repr ts1).data.length = (Nat.repr ts2).data.length := by
    have e1 : (Nat.repr ts1).data.length = (Nat.repr ts1).length := rfl
    have e2 : (Nat.repr ts2).data.length = (Nat.repr ts2).length := rfl
    have e3 : (Nat.repr c1).data.length = (Nat.repr c1).length := rfl
    have e4 : (Nat.repr c2).data.length = (Nat.repr c2).length := rfl
    omega
  have hcd : (Nat.repr c1).data = (Nat.repr c2).data := List.append_inj_right hd2 hLeq
  exact absurd (repr_inj (String.ext hcd)) (Nat.ne_of_lt hc)

/-! ### Behaviour of serialized `get_client_order_id` runs -/

theorem runCalls_counters (tss : List Nat) (s : ClientState) :
    List.map Prod.snd (runCalls tss s).1 =
      List.map (fun i => s.order_count + 1 + i) (List.range tss.length) := by
  induction tss generalizing s with
  | nil => simp [runCalls]
  | cons ts rest ih =>
    simp only [runCalls, get_client_order_id, List.length_cons, List.map_cons]
    rw [List.range_succ_eq_map]
    simp only [List.map_cons, List.map_map]
    refine List.cons_eq_cons.mpr ⟨by omega, ?_⟩
    · rw [ih ⟨s.order_count + 1⟩]
      apply List.map_congr_left
      intro i _
      simp [Function.comp]
      omega

theorem runCalls_final (tss : List Nat) (s : ClientState) :
    (runCalls tss s).2.order_count = s.order_count + tss.length := by
  induction tss generalizing s with
  | nil => simp [runCalls]
  | cons ts rest ih =>
    simp only [runCalls]
    rw [ih]
    simp [get_client_order_id]
    omega

theorem runCalls_mem (tss : List Nat) (s : ClientState) :
    ∀ e ∈ (runCalls tss s).1, ∃ ts ∈ tss,
      e.1 = "x-A6SIDXVS" ++ Nat.repr ts ++ Nat.repr e.2 ∧ s.order_count < e.2 := by
  induction tss generalizing s with
  | nil => simp [runCalls]
  | cons ts rest ih =>
    intro e he
    simp only [runCalls, get_client_order_id, List.mem_cons] at he
    rcases he with he | he
    · subst he
      exact ⟨ts, by simp, rfl, Nat.lt_succ_self _⟩
    · obtain ⟨ts', hts', heq, hlt⟩ := ih ⟨s.order_count + 1⟩ e he
      change s.order_count + 1 < e.2 at hlt
      exact ⟨ts', by simp [hts'], heq, by omega⟩

theorem runCalls_ids_pairwise (tss : List Nat) (s : ClientState)
    (h : List.Pairwise (· ≤ ·) tss) :
    List.Pairwise (· ≠ ·) (List.map Prod.fst (runCalls tss s).1) := by
  induction tss generalizing s with
  | nil => simp [runCalls]
  | cons ts rest ih =>
    rcases List.pairwise_cons.mp h with ⟨hhead, htail⟩
    simp only [runCalls, get_client_order_id, List.map_cons]
    refine List.pairwise_cons.mpr ⟨?_, ih ⟨s.order_count + 1⟩ htail⟩
    intro idstr hmem
    obtain ⟨e, he, rfl⟩ := List.mem_map.mp hmem
    obtain ⟨ts', hts', heq, hlt⟩ := runCalls_mem rest ⟨s.order_count + 1⟩ e he
    rw [heq]
    exact client_order_id_ne ts ts' (s.order_count + 1) e.2 (hhead ts' hts') hlt

/-! ### Transport loop lemmas -/

theorem transportAux_first_success (oracle : Nat → Outcome) :
    ∀ (i start fuel : Nat) (b : String), i < fuel →
    (∀ j < i, (oracle (start + j)).isSuccess = false) →
    oracle (start + i) = Outcome.success b →
    transportAux oracle start fuel =
      ⟨some b, i + 1, netErrCount oracle start i⟩ := by
  intro i
  induction i with
  | zero =>
    intro start fuel b hf hpre hsucc
    match fuel, hf with
    | fuel + 1, _ =>
      rw [Nat.add_zero] at hsucc
      simp [transportAux, hsucc, netErrCount]
  | succ i ih =>
    intro start fuel b hf hpre hsucc
    match fuel, hf with
    | fuel + 1, _ =>
      have h0 : (oracle start).isSuccess = false := by
        have := hpre 0 (Nat.succ_pos i)
        rwa [Nat.add_zero] at this
      have hpre' : ∀ j < i, (oracle (start + 1 + j)).isSuccess = false := by
        intro j hj
        have := hpre (j + 1) (by omega)
        rwa [show start + (j + 1) = start + 1 + j by omega] at this
      have hsucc' : oracle (start + 1 + i) = Outcome.success b := by
        rwa [show start + (i + 1) = start + 1 + i by omega] at hsucc
      have hrec := ih (start + 1) fuel b (by omega) hpre' hsucc'
      cases hc : oracle start with
      | success body => rw [hc] at h0; simp [Outcome.isSuccess] at h0
      | httpError st body =>
        simp only [transportAux, hc, hrec, netErrCount]
        simp
      | netError =>
        simp only [transportAux, hc, hrec, netErrCount]
        simp
        omega

theorem transportAux_exhaust (oracle : Nat → Outcome) :
    ∀ (fuel start : Nat), (∀ j < fuel, (oracle (start + j)).isSuccess = false) →
    transportAux oracle start fuel = ⟨none, fuel, netErrCount oracle start fuel⟩ := by
  intro fuel
  induction fuel with
  | zero => intro start _; simp [transportAux, netErrCount]
  | succ fuel ih =>
    intro start h
    have h0 : (oracle start).isSuccess = false := by
      have := h 0 (Nat.succ_pos fuel)
      rwa [Nat.add_zero] at this
    have h' : ∀ j < fuel, (oracle (start + 1 + j)).isSuccess = false := by
      intro j hj
      have := h (j + 1) (by omega)
      rwa [show start + (j + 1) = start + 1 + j by omega] at this
    have hrec := ih (start + 1) h'
    cases hc : oracle start with
    | success body => rw [hc] at h0; simp [Outcome.isSuccess] at h0
    | httpError st body =>
      simp only [transportAux, hc, hrec, netErrCount]
      simp
    | netError =>
      simp only [transportAux, hc, hrec, netErrCount]
      simp
      omega

/-! ### Claim theorems -/

/-- C1 (code defect): `build_parameters` does not join in sorted key
order — `keys.sort()` on line 25 is computed and discarded, and the join
iterates `params.keys()` in insertion order.  Two dictionaries holding
the same pairs in different insertion orders encode differently (while
the sorted join the spec describes would agree on them); the empty
mapping does encode to the empty string. -/
theorem build_parameters_insertion_order :
    build_parameters [("b", Value.vstr "1"), ("a", Value.vstr "2")] = "b=1&a=2" ∧
    build_parameters [("a", Value.vstr "2"), ("b", Value.vstr "1")] = "a=2&b=1" ∧
    build_parameters [("b", Value.vstr "1"), ("a", Value.vstr "2")] ≠
      build_parameters [("a", Value.vstr "2"), ("b", Value.vstr "1")] ∧
    build_parameters [] = "" ∧
    build_parameters_sorted [("b", Value.vstr "1"), ("a", Value.vstr "2")] =
      build_parameters_sorted [("a", Value.vstr "2"), ("b", Value.vstr "1")] := by
  refine ⟨by decide, by decide, by decide, rfl, by decide⟩

/-- C2 (counterexample): with the first attempt answered by HTTP 404 and
the second by HTTP 200, the loop issues a second attempt after the
non-200 status (without sleeping) and returns the second attempt's body —
a non-200 status does not stop the attempt loop. -/
theorem http_error_triggers_retry_cex :
    (oracle404 0).isSuccess = false ∧
    transportLoop 5 oracle404 = ⟨some "ok", 2, 0⟩ := by
  refine ⟨by decide, by decide⟩

/-- C2 (amended): an HTTP 200 response at attempt `i` makes the loop
return the decoded body immediately, after exactly `i + 1` attempts,
short-circuiting the rest; every earlier non-success attempt — non-200
status or network exception alike — falls through to another attempt,
and only the network-exception ones add a 3-second sleep. -/
theorem transport_success_short_circuits (oracle : Nat → Outcome)
    (try_counts i : Nat) (b : String) (hi : i < try_counts)
    (hpre : ∀ j < i, (oracle j).isSuccess = false)
    (hsucc : oracle i = Outcome.success b) :
    transportLoop try_counts oracle = ⟨some b, i + 1, netErrCount oracle 0 i⟩ := by
  have := transportAux_first_success oracle i 0 try_counts b hi
    (by intro j hj; simpa using hpre j hj) (by simpa using hsucc)
  exact this

/-- C2 witness: oracle404 succeeds at attempt 1 after a 404 at attempt 0;
the loop returns after 2 of its 5 attempts, with no sleep. -/
theorem transport_success_short_circuits_witness :
    (1 < 5 ∧ (∀ j < 1, (oracle404 j).isSuccess = false) ∧
      oracle404 1 = Outcome.success "ok") ∧
    transportLoop 5 oracle404 = ⟨some "ok", 1 + 1, netErrCount oracle404 0 1⟩ :=
  ⟨⟨by decide, by decide, by decide⟩,
    transport_success_short_circuits oracle404 5 1 "ok" (by decide) (by decide) (by decide)⟩

/-- C5: when no attempt receives HTTP 200 — each one either a non-200
status or a network exception — the loop performs exactly `try_counts`
attempts and falls off the loop, returning Python `None` and raising
nothing. -/
theorem transport_exhausts_returns_none (oracle : Nat → Outcome)
    (try_counts : Nat) (h : ∀ j < try_counts, (oracle j).isSuccess = false) :
    transportLoop try_counts oracle =
      ⟨none, try_counts, netErrCount oracle 0 try_counts⟩ := by
  exact transportAux_exhaust oracle try_counts 0 (by intro j hj; simpa using h j hj)

/-- C5 witness: three failing attempts (500, network exception, 500)
yield `None` after exactly 3 attempts and 1 sleep. -/
theorem transport_exhausts_returns_none_witness :
    (∀ j < 3, (oracleAllFail j).isSuccess = false) ∧
    transportLoop 3 oracleAllFail = ⟨none, 3, netErrCount oracleAllFail 0 3⟩ :=
  ⟨by decide, transport_exhausts_returns_none oracleAllFail 3 (by decide)⟩

/-- C4: each serialized invocation of `get_client_order_id` (the lock
serializes concurrent callers) increments the counter by exactly one and
returns the fixed tag, then the sampled millisecond timestamp, then the
post-increment counter value; starting from the fresh client
(counter 1,000,000), N invocations embed the contiguous increasing run
1,000,001 … 1,000,000+N (so no two observe the same value and the
counter only increases), and — the timestamps being sampled from a
non-decreasing clock, listed in lock order — the N id strings are
pairwise distinct. -/
theorem client_order_id_generation (tss : List Nat)
    (hmono : List.Pairwise (· ≤ ·) tss) :
    (∀ (ts : Nat) (s : ClientState), get_client_order_id ts s =
      ("x-A6SIDXVS" ++ Nat.repr ts ++ Nat.repr (s.order_count + 1),
        ⟨s.order_count + 1⟩)) ∧
    initState.order_count = 1000000 ∧
    List.map Prod.snd (runCalls tss initState).1 =
      List.map (fun i => 1000000 + 1 + i) (List.range tss.length) ∧
    (runCalls tss initState).2.order_count = 1000000 + tss.length ∧
    List.Pairwise (· < ·) (List.map Prod.snd (runCalls tss initState).1) ∧
    List.Pairwise (· ≠ ·) (List.map Prod.fst (runCalls tss initState).1) := by
  refine ⟨fun ts s => rfl, rfl, runCalls_counters tss initState,
    runCalls_final tss initState, ?_, runCalls_ids_pairwise tss initState hmono⟩
  rw [runCalls_counters tss initState]
  rw [List.pairwise_map]
  exact (List.pairwise_lt_range tss.length).imp (by omega)

/-- C4 witness: three calls under a non-decreasing clock (two of them in
the same millisecond). -/
theorem client_order_id_generation_witness :
    List.Pairwise (· ≤ ·) [1700000000000, 1700000000000, 1700000000001] ∧
    ((∀ (ts : Nat) (s : ClientState), get_client_order_id ts s =
      ("x-A6SIDXVS" ++ Nat.repr ts ++ Nat.repr (s.order_count + 1),
        ⟨s.order_count + 1⟩)) ∧
    initState.order_count = 1000000 ∧
    List.map Prod.snd (runCalls [1700000000000, 1700000000000, 1700000000001] initState).1 =
      List.map (fun i => 1000000 + 1 + i)
        (List.range ([1700000000000, 1700000000000, 1700000000001] : List Nat).length) ∧
    (runCalls [1700000000000, 1700000000000, 1700000000001] initState).2.order_count =
      1000000 + ([1700000000000, 1700000000000, 1700000000001] : List Nat).length ∧
    List.Pairwise (· < ·)
      (List.map Prod.snd (runCalls [1700000000000, 1700000000000, 1700000000001] initState).1) ∧
    List.Pairwise (· ≠ ·)
      (List.map Prod.fst (runCalls [1700000000000, 1700000000000, 1700000000001] initState).1)) :=
  ⟨by decide, client_order_id_generation [1700000000000, 1700000000000, 1700000000001] (by decide)⟩

/-! ### Hex digest lemmas -/

theorem hexChar_mem (n : Nat) : hexChar n ∈ "0123456789abcdef".data := by
  unfold hexChar
  by_cases h : n < 16
  · interval_cases n <;> decide
  · rw [List.getD_eq_getElem?_getD, List.getElem?_eq_none]
    · decide
    · have hlen : ("0123456789abcdef".data).length = 16 := by decide
      omega

theorem flatMap_byteHex_length (bytes : List Nat) :
    (List.flatMap bytes byteHex).length = 2 * bytes.length := by
  induction bytes with
  | nil => rfl
  | cons b bs ih =>
    simp only [List.flatMap_cons, List.length_append, List.length_cons, ih, byteHex]
    simp
    omega

theorem sha256_length (msg : List Nat) : (sha256 msg).length = 32 := by
  show (digestBytes _).length = 32
  simp [digestBytes, be4]

theorem hmacSha256_length (key msg : List Nat) : (hmacSha256 key msg).length = 32 :=
  sha256_length _

theorem hexDigest_length (bytes : List Nat) :
    (hexDigest bytes).length = 2 * bytes.length := by
  show (List.flatMap bytes byteHex).length = 2 * bytes.length
  exact flatMap_byteHex_length bytes

theorem hexDigest_chars (bytes : List Nat) :
    ∀ c ∈ (hexDigest bytes).data, c ∈ "0123456789abcdef".data := by
  intro c hc
  have hm : c ∈ List.flatMap bytes byteHex := hc
  obtain ⟨b, _, hcb⟩ := List.mem_flatMap.mp hm
  simp only [byteHex, List.mem_cons, List.not_mem_nil, or_false] at hcb
  rcases hcb with h | h <;> (subst h; exact hexChar_mem _)

set_option maxRecDepth 10000 in
/-- Matches Python `hmac.new("sec".encode(), "a=1".encode(),
hashlib.sha256).hexdigest()`. -/
example : _sign (some "sec") [("a", Value.vstr "1")] =
    Except.ok "a=1&signature=ba172c3c8ce9ad154d9e994a5610cab592be3f1d983a90b03d64dd976ecc537b" := by
  decide

/-- C3: for every parameter mapping and non-empty secret, `_sign`
returns the canonical parameter string, then `&signature=`, then the
hexadecimal HMAC-SHA256 digest (64 lowercase hex characters) computed
over the UTF-8 bytes of exactly that canonical string — of the other
parameters only, never of the signature field — keyed by the UTF-8 bytes
of the secret. -/
theorem sign_is_hmac_of_canonical (params : Params) (secret : String)
    (_h : secret ≠ "") :
    _sign (some secret) params =
      Except.ok (build_parameters params ++ "&signature=" ++
        hexDigest (hmacSha256 (utf8Bytes secret) (utf8Bytes (build_parameters params)))) ∧
    (hexDigest (hmacSha256 (utf8Bytes secret)
      (utf8Bytes (build_parameters params)))).length = 64 ∧
    (∀ c ∈ (hexDigest (hmacSha256 (utf8Bytes secret)
        (utf8Bytes (build_parameters params)))).data, c ∈ "0123456789abcdef".data) := by
  refine ⟨rfl, ?_, hexDigest_chars _⟩
  rw [hexDigest_length, hmacSha256_length]

/-- C3 witness: the signer evaluated at secret `sec` and the
single-entry mapping `a = 1`. -/
theorem sign_is_hmac_of_canonical_witness :
    ("sec" ≠ "") ∧
    (_sign (some "sec") [("a", Value.vstr "1")] =
      Except.ok (build_parameters [("a", Value.vstr "1")] ++ "&signature=" ++
        hexDigest (hmacSha256 (utf8Bytes "sec")
          (utf8Bytes (build_parameters [("a", Value.vstr "1")])))) ∧
    (hexDigest (hmacSha256 (utf8Bytes "sec")
      (utf8Bytes (build_parameters [("a", Value.vstr "1")])))).length = 64 ∧
    (∀ c ∈ (hexDigest (hmacSha256 (utf8Bytes "sec")
        (utf8Bytes (build_parameters [("a", Value.vstr "1")])))).data,
      c ∈ "0123456789abcdef".data)) :=
  ⟨by decide, sign_is_hmac_of_canonical [("a", Value.vstr "1")] "sec" (by decide)⟩

/-! ### Dictionary lemmas -/

theorem not_mem_dictDel (d : Params) (k : String) : k ∉ dictKeys (dictDel d k) := by
  intro h
  obtain ⟨kv, hkv, hk⟩ := List.mem_map.mp h
  have h2 := (List.mem_filter.mp hkv).2
  simp [hk] at h2

set_option maxRecDepth 10000 in
/-- C9 (code defect): calling `_sign` with the empty-string secret does
not fail — it silently returns a signed query string (HMAC keyed by the
empty key); only the `None` secret raises (`AttributeError` at
`None.encode`), and that before any attempt is issued. -/
theorem empty_secret_silently_signs :
    _sign (some "") [("a", Value.vstr "1")] =
      Except.ok "a=1&signature=16e9f8daa620c3475f24e3a38edc51d901f692b9e15b01c3c0681bc671b3e1f2" ∧
    _sign none [("a", Value.vstr "1")] = Except.error PyErr.attributeError := by
  exact ⟨by decide, rfl⟩

/-- C7 (counterexample): a MARKET order with supplied price 0 keeps the
`price` key in the outgoing mapping — `params.get('price')` is falsy at
0, so the deletion branch is skipped. -/
theorem market_zero_price_kept_cex :
    place_order_params (mkConfig none none none 5) 1700000000000 "cid" "BTCUSDT"
        OrderSide.BUY OrderType.MARKET 1 0 "GTC" 0 =
      Except.ok
        [("symbol", Value.vstr "BTCUSDT"), ("side", Value.vstr "BUY"),
         ("type", Value.vstr "MARKET"), ("quantity", Value.vnum 1),
         ("price", Value.vnum 0), ("recvWindow", Value.vnum 10000),
         ("timestamp", Value.vnum 1700000000000), ("newClientOrderId", Value.vstr "cid")] ∧
    "price" ∈ dictKeys (sentParams (place_order_params (mkConfig none none none 5)
      1700000000000 "cid" "BTCUSDT" OrderSide.BUY OrderType.MARKET 1 0 "GTC" 0)) := by
  exact ⟨by decide, by decide⟩

/-- C7 (amended): a MARKET order's outgoing mapping contains no `price`
key for every nonzero supplied price; 0 (Python-falsy) escapes the
deletion. -/
theorem market_order_omits_nonzero_price (cfg : Config) (ts : Nat)
    (cid symbol : String) (side : OrderSide) (q price : Rat) (tif : String)
    (sp : Rat) (hp : price ≠ 0) :
    ∀ p, place_order_params cfg ts cid symbol side OrderType.MARKET q price tif sp =
      Except.ok p → "price" ∉ dictKeys p := by
  intro p h
  simp +decide [place_order_params, dictGetTruthy, dictGet, Value.truthy, hp] at h
  subst h
  exact not_mem_dictDel _ _

/-- C7 witness: a MARKET order with price 2 omits `price`. -/
theorem market_order_omits_nonzero_price_witness :
    ((2 : Rat) ≠ 0) ∧
    "price" ∉ dictKeys
      [("symbol", Value.vstr "BTCUSDT"), ("side", Value.vstr "BUY"),
       ("type", Value.vstr "MARKET"), ("quantity", Value.vnum 1),
       ("recvWindow", Value.vnum 10000), ("timestamp", Value.vnum 1700000000000),
       ("newClientOrderId", Value.vstr "cid")] :=
  ⟨by norm_num,
    market_order_omits_nonzero_price (mkConfig none none none 5) 1700000000000
      "cid" "BTCUSDT" OrderSide.BUY 1 2 "GTC" 0 (by norm_num) _ (by decide)⟩

/-- C8: a STOP order with non-positive stop price raises
`ValueError("stopPrice must greater than 0")` during parameter assembly,
so `place_order` propagates the error and no request is ever built
(zero network activity); with a positive stop price the `stopPrice`
parameter is included with exactly that value. -/
theorem stop_price_validation (cfg : Config) (ts : Nat) (cid symbol : String)
    (side : OrderSide) (q price : Rat) (tif : String) (sp : Rat) :
    (sp ≤ 0 → place_order_params cfg ts cid symbol side OrderType.STOP q price tif sp =
        Except.error (PyErr.valueError "stopPrice must greater than 0") ∧
      place_order_request cfg ts cid symbol side OrderType.STOP q price tif sp =
        Except.error (PyErr.valueError "stopPrice must greater than 0")) ∧
    (0 < sp → dictGet (sentParams (place_order_params cfg ts cid symbol side
        OrderType.STOP q price tif sp)) "stopPrice" = some (Value.vnum sp)) := by
  constructor
  · intro hsp
    have hparams : place_order_params cfg ts cid symbol side OrderType.STOP q price tif sp =
        Except.error (PyErr.valueError "stopPrice must greater than 0") := by
      simp +decide [place_order_params, not_lt.mpr hsp]
    refine ⟨hparams, ?_⟩
    unfold place_order_request
    rw [hparams]
  · intro hsp
    simp +decide [place_order_params, hsp, sentParams, dictSet, dictGet]

/-- C8 witness: stop price -1 raises before any request; stop price 1 is
forwarded as `stopPrice`. -/
theorem stop_price_validation_witness :
    (((-1 : Rat) ≤ 0 →
      place_order_params (mkConfig none none none 5) 1700000000000 "cid" "BTCUSDT"
          OrderSide.BUY OrderType.STOP 1 2 "GTC" (-1) =
        Except.error (PyErr.valueError "stopPrice must greater than 0") ∧
      place_order_request (mkConfig none none none 5) 1700000000000 "cid" "BTCUSDT"
          OrderSide.BUY OrderType.STOP 1 2 "GTC" (-1) =
        Except.error (PyErr.valueError "stopPrice must greater than 0")) ∧
    ((0 : Rat) < -1 → dictGet (sentParams (place_order_params (mkConfig none none none 5)
        1700000000000 "cid" "BTCUSDT" OrderSide.BUY OrderType.STOP 1 2 "GTC" (-1)))
        "stopPrice" = some (Value.vnum (-1)))) ∧
    dictGet (sentParams (place_order_params (mkConfig none none none 5)
        1700000000000 "cid" "BTCUSDT" OrderSide.BUY OrderType.STOP 1 2 "GTC" 1))
      "stopPrice" = some (Value.vnum 1) :=
  ⟨stop_price_validation (mkConfig none none none 5) 1700000000000 "cid" "BTCUSDT"
      OrderSide.BUY 1 2 "GTC" (-1),
    (stop_price_validation (mkConfig none none none 5) 1700000000000 "cid" "BTCUSDT"
      OrderSide.BUY 1 2 "GTC" 1).2 (by norm_num)⟩

/-- C6 (counterexample): `get_order`'s parameter set has no `recvWindow`
at all, and `get_listen_key` sets `recvWindow` to 5000, not the
configured default 10000 — the claim fails on both counts at these
inputs. -/
theorem recv_window_claim_cex :
    dictGet (get_order_params "BTCUSDT" 1700000000000 "cid") "recvWindow" = none ∧
    dictGet (get_listen_key_params 1700000000000) "recvWindow" = some (Value.vnum 5000) ∧
    Value.vnum 5000 ≠ Value.vnum 10000 := by
  exact ⟨by decide, by decide, by decide⟩

/-- C6 (amended): every signed request's parameter set includes
`timestamp` (the sampled client millisecond epoch), and the `signature`
field is appended last, computed over everything else; but `recvWindow`
appears only where the method adds it — `place_order`,
`cancel_open_orders` and `get_account_info` send the configured default
(10000), the listen-key operations send a hard-coded 5000, and
`get_order`, `cancel_order` and `get_open_orders` send no `recvWindow`. -/
theorem signed_request_window_fields :
    (∀ (symbol : String) (ts : Nat) (cid : String),
      dictGet (get_order_params symbol ts cid) "timestamp" = some (Value.vnum ts) ∧
      dictGet (get_order_params symbol ts cid) "recvWindow" = none) ∧
    (∀ (symbol : String) (ts : Nat) (cid : String),
      dictGet (cancel_order_params symbol ts cid) "timestamp" = some (Value.vnum ts) ∧
      dictGet (cancel_order_params symbol ts cid) "recvWindow" = none) ∧
    (∀ (ts : Nat) (symbol : Option String),
      dictGet (get_open_orders_params ts symbol) "timestamp" = some (Value.vnum ts) ∧
      dictGet (get_open_orders_params ts symbol) "recvWindow" = none) ∧
    (∀ ts : Nat,
      dictGet (get_listen_key_params ts) "timestamp" = some (Value.vnum ts) ∧
      dictGet (get_listen_key_params ts) "recvWindow" = some (Value.vnum 5000)) ∧
    (∀ (ts : Nat) (lk : String),
      dictGet (extend_listen_key_params ts lk) "timestamp" = some (Value.vnum ts) ∧
      dictGet (extend_listen_key_params ts lk) "recvWindow" = some (Value.vnum 5000)) ∧
    (∀ (cfg : Config) (ts : Nat) (symbol : String),
      dictGet (cancel_open_orders_params cfg ts symbol) "timestamp" = some (Value.vnum ts) ∧
      dictGet (cancel_open_orders_params cfg ts symbol) "recvWindow" =
        some (Value.vnum cfg.recv_window)) ∧
    (∀ (cfg : Config) (ts : Nat),
      dictGet (get_account_info_params cfg ts) "timestamp" = some (Value.vnum ts) ∧
      dictGet (get_account_info_params cfg ts) "recvWindow" =
        some (Value.vnum cfg.recv_window)) ∧
    (∀ (k s h : Option String) (tc : Nat), (mkConfig k s h tc).recv_window = 10000) ∧
    (∀ (cfg : Config) (ts : Nat) (cid symbol : String) (side : OrderSide)
        (otype : OrderType) (q price : Rat) (tif : String) (sp : Rat) (p : Params),
      place_order_params cfg ts cid symbol side otype q price tif sp = Except.ok p →
      dictGet p "timestamp" = some (Value.vnum ts) ∧
      dictGet p "recvWindow" = some (Value.vnum cfg.recv_window)) ∧
    (∀ (secret : String) (params : Params),
      _sign (some secret) params = Except.ok (build_parameters params ++ "&signature=" ++
        hexDigest (hmacSha256 (utf8Bytes secret) (utf8Bytes (build_parameters params))))) := by
  refine ⟨?_, ?_, ?_, ?_, ?_, ?_, ?_, ?_, ?_, ?_⟩
  · intro symbol ts cid
    exact ⟨by simp +decide [get_order_params, dictGet], by simp +decide [get_order_params, dictGet]⟩
  · intro symbol ts cid
    exact ⟨by simp +decide [cancel_order_params, dictGet],
      by simp +decide [cancel_order_params, dictGet]⟩
  · intro ts symbol
    cases symbol with
    | none =>
      exact ⟨by simp +decide [get_open_orders_params, dictGet],
        by simp +decide [get_open_orders_params, dictGet]⟩
    | some s =>
      by_cases hs : s = ""
      · subst hs
        exact ⟨by simp +decide [get_open_orders_params, dictGet],
          by simp +decide [get_open_orders_params, dictGet]⟩
      · exact ⟨by simp +decide [get_open_orders_params, dictGet, dictSet, hs],
          by simp +decide [get_open_orders_params, dictGet, dictSet, hs]⟩
  · intro ts
    exact ⟨by simp +decide [get_listen_key_params, dictGet],
      by simp +decide [get_listen_key_params, dictGet]⟩
  · intro ts lk
    exact ⟨by simp +decide [extend_listen_key_params, dictGet],
      by simp +decide [extend_listen_key_params, dictGet]⟩
  · intro cfg ts symbol
    exact ⟨by simp +decide [cancel_open_orders_params, dictGet],
      by simp +decide [cancel_open_orders_params, dictGet]⟩
  · intro cfg ts
    exact ⟨by simp +decide [get_account_info_params, dictGet],
      by simp +decide [get_account_info_params, dictGet]⟩
  · intro k s h tc
    rfl
  · intro cfg ts cid symbol side otype q price tif sp p hok
    cases otype with
    | LIMIT =>
      simp +decide [place_order_params, dictSet] at hok
      subst hok
      exact ⟨by simp +decide [dictGet], by simp +decide [dictGet]⟩
    | MARKET =>
      by_cases hp0 : price = 0
      · subst hp0
        simp +decide [place_order_params, dictGetTruthy, dictGet, Value.truthy] at hok
        subst hok
        exact ⟨by simp +decide [dictGet], by simp +decide [dictGet]⟩
      · simp +decide [place_order_params, dictGetTruthy, dictGet, Value.truthy, hp0] at hok
        subst hok
        exact ⟨by simp +decide [dictGet, dictDel], by simp +decide [dictGet, dictDel]⟩
    | STOP =>
      by_cases hsp : 0 < sp
      · simp +decide [place_order_params, hsp, dictSet] at hok
        subst hok
        exact ⟨by simp +decide [dictGet], by simp +decide [dictGet]⟩
      · simp +decide [place_order_params, hsp] at hok
  · intro secret params
    rfl

/-- C6 witness: a MARKET `place_order` at price 0 (so the assembled
dictionary survives unchanged) carries `timestamp` and the configured
default `recvWindow` of 10000. -/
theorem signed_request_window_fields_witness :
    place_order_params (mkConfig none none none 5) 1700000000000 "cid" "BTCUSDT"
        OrderSide.BUY OrderType.MARKET 1 0 "GTC" 0 =
      Except.ok
        [("symbol", Value.vstr "BTCUSDT"), ("side", Value.vstr "BUY"),
         ("type", Value.vstr "MARKET"), ("quantity", Value.vnum 1),
         ("price", Value.vnum 0), ("recvWindow", Value.vnum 10000),
         ("timestamp", Value.vnum 1700000000000), ("newClientOrderId", Value.vstr "cid")] ∧
    dictGet
        [("symbol", Value.vstr "BTCUSDT"), ("side", Value.vstr "BUY"),
         ("type", Value.vstr "MARKET"), ("quantity", Value.vnum 1),
         ("price", Value.vnum 0), ("recvWindow", Value.vnum 10000),
         ("timestamp", Value.vnum 1700000000000), ("newClientOrderId", Value.vstr "cid")]
        "timestamp" = some (Value.vnum 1700000000000) ∧
    dictGet
        [("symbol", Value.vstr "BTCUSDT"), ("side", Value.vstr "BUY"),
         ("type", Value.vstr "MARKET"), ("quantity", Value.vnum 1),
         ("price", Value.vnum 0), ("recvWindow", Value.vnum 10000),
         ("timestamp", Value.vnum 1700000000000), ("newClientOrderId", Value.vstr "cid")]
        "recvWindow" = some (Value.vnum (mkConfig none none none 5).recv_window) :=
  ⟨by decide,
    (signed_request_window_fields.2.2.2.2.2.2.2.2.1 (mkConfig none none none 5)
      1700000000000 "cid" "BTCUSDT" OrderSide.BUY OrderType.MARKET 1 0 "GTC" 0 _
      (by decide)).1,
    (signed_request_window_fields.2.2.2.2.2.2.2.2.1 (mkConfig none none none 5)
      1700000000000 "cid" "BTCUSDT" OrderSide.BUY OrderType.MARKET 1 0 "GTC" 0 _
      (by decide)).2⟩

/-- The unsigned build path always attaches the api-key header. -/
theorem requestBuild_unsigned_headers (cfg : Config) (m : RequestMethod)
    (path : String) (params : Params) :
    reqHeaders (requestBuild cfg m path params false) = [("X-MBX-APIKEY", cfg.api_key)] := by
  unfold requestBuild reqHeaders
  by_cases hp : params ≠ [] <;> simp [hp]

/-- C10: every request `OptionClient.request` actually issues carries the
header `X-MBX-APIKEY: <api_key>` — any successfully built request, and
in particular the unsigned public-endpoint calls (ping, server time,
depth, klines), for which the venue does not require the header. -/
theorem api_key_header_on_every_request :
    (∀ (cfg : Config) (m : RequestMethod) (path : String) (params : Params)
        (verify : Bool) (r : HttpRequest),
      requestBuild cfg m path params verify = Except.ok r →
      r.headers = [("X-MBX-APIKEY", cfg.api_key)]) ∧
    (∀ cfg : Config, reqHeaders (get_ping_request cfg) = [("X-MBX-APIKEY", cfg.api_key)]) ∧
    (∀ cfg : Config, reqHeaders (get_server_time_request cfg) = [("X-MBX-APIKEY", cfg.api_key)]) ∧
    (∀ (cfg : Config) (symbol : String) (limit : Nat),
      reqHeaders (get_order_book_request cfg symbol limit) = [("X-MBX-APIKEY", cfg.api_key)]) ∧
    (∀ (cfg : Config) (symbol interval : String) (st et : Option Nat) (limit : Nat),
      reqHeaders (get_kline_request cfg symbol interval st et limit) =
        [("X-MBX-APIKEY", cfg.api_key)]) := by
  refine ⟨?_, fun cfg => requestBuild_unsigned_headers cfg _ _ _,
    fun cfg => requestBuild_unsigned_headers cfg _ _ _,
    fun cfg symbol limit => requestBuild_unsigned_headers cfg _ _ _,
    fun cfg symbol interval st et limit => requestBuild_unsigned_headers cfg _ _ _⟩
  intro cfg m path params verify r h
  unfold requestBuild at h
  by_cases hv : verify = true
  · rw [if_pos hv] at h
    cases hs : _sign cfg.api_secret params with
    | error e => rw [hs] at h; cases h
    | ok q =>
      rw [hs] at h
      cases h
      rfl
  · rw [if_neg hv] at h
    by_cases hp : params ≠ []
    · rw [if_pos hp] at h
      cases h
      rfl
    · rw [if_neg hp] at h
      cases h
      rfl

/-- C10 witness: the ping request against a configured client. -/
theorem api_key_header_on_every_request_witness :
    requestBuild (mkConfig (some "k") none none 5) RequestMethod.GET "/api/v1/ping" [] false =
      Except.ok ⟨"GET", "https://testnet.binanceops.com/api/v1/ping",
        [("X-MBX-APIKEY", some "k")]⟩ ∧
    HttpRequest.headers ⟨"GET", "https://testnet.binanceops.com/api/v1/ping",
        [("X-MBX-APIKEY", some "k")]⟩ =
      [("X-MBX-APIKEY", (mkConfig (some "k") none none 5).api_key)] :=
  ⟨by decide,
    api_key_header_on_every_request.1 (mkConfig (some "k") none none 5)
      RequestMethod.GET "/api/v1/ping" [] false
      ⟨"GET", "https://testnet.binanceops.com/api/v1/ping", [("X-MBX-APIKEY", some "k")]⟩
      (by decide)⟩

end BinanceOpt
